import Mathlib

/-!
# Ryu board: Type-C superspeed mux routing and BD99955 charger-type patterns

A shallow embedding of `board_set_usb_mux` and of the status branch of
`command_typec` (board/ryu/board.c), and of the `BD99955_TYPE_*` bit patterns
(driver/charger/bd99955.h), with the properties the specification states
about them.
-/

namespace Ryu

/-! ## GPIO layer -/

/-- The GPIO signals that board.c refers to by name. -/
inductive gpio_signal where
  | GPIO_USBC_CC_EN
  | GPIO_CHGR_ACOK
  | GPIO_USBC_SS_EN_L
  | GPIO_USBC_DP_MODE_L
  | GPIO_USBC_DP_POLARITY
  | GPIO_USBC_SS1_USB_MODE_L
  | GPIO_USBC_SS2_USB_MODE_L
  | GPIO_MASTER_I2C_SCL
  | GPIO_MASTER_I2C_SDA
  | GPIO_SLAVE_I2C_SCL
  | GPIO_SLAVE_I2C_SDA
  deriving DecidableEq, Repr

open gpio_signal

/-- The output lines together with the ordered record of the writes applied
to them: `level g` is `true` when line `g` is high, and `writes` lists every
`gpio_set_level` call (signal, value passed) oldest first. -/
structure gpio_state where
  level : gpio_signal → Bool
  writes : List (gpio_signal × Int)

/-- Modelled from the spec: `gpio_set_level` is a GPIO transport primitive
that is not part of board.c. Each switch is an independently settable binary
output: the call drives `signal` high when `value` is non-zero and low when it
is zero, leaves every other line alone, and is appended to the write record. -/
def gpio_set_level (signal : gpio_signal) (value : Int) (s : gpio_state) : gpio_state :=
  { level := fun g => if g = signal then decide (value ≠ 0) else s.level g
    writes := s.writes ++ [(signal, value)] }

/-- Modelled from the spec: `gpio_get_level` is a GPIO transport primitive
that is not part of board.c. It is a pure query returning 1 for a high line
and 0 for a low one. -/
def gpio_get_level (signal : gpio_signal) (s : gpio_state) : Int :=
  if s.level signal then 1 else 0

/-- Modelled from the spec: `enum typec_mux` is declared in usb_pd.h, which is
not part of the sources. The four enumerators are the ones board.c uses, in the
order of `mux_name[]` (none, usb, dp, dock) and of the spec's
`None | Usb | DisplayPort | Dock`. -/
inductive typec_mux where
  | TYPEC_MUX_NONE
  | TYPEC_MUX_USB
  | TYPEC_MUX_DP
  | TYPEC_MUX_DOCK
  deriving DecidableEq, Repr

open typec_mux

/-! ## board.c -/

/-- The function `board_set_usb_mux(port, mux, polarity)` of board.c, as a
transformer of the GPIO state. `port` is accepted and ignored, as in the
source. -/
def board_set_usb_mux (port : Int) (mux : typec_mux) (polarity : Int)
    (s : gpio_state) : gpio_state :=
  let _ := port
  -- reset everything
  let s := gpio_set_level GPIO_USBC_SS_EN_L 1 s
  let s := gpio_set_level GPIO_USBC_DP_MODE_L 1 s
  let s := gpio_set_level GPIO_USBC_DP_POLARITY 1 s
  let s := gpio_set_level GPIO_USBC_SS1_USB_MODE_L 1 s
  let s := gpio_set_level GPIO_USBC_SS2_USB_MODE_L 1 s
  if mux = TYPEC_MUX_NONE then
    -- everything is already disabled, we can return
    s
  else
    let s :=
      if mux = TYPEC_MUX_USB ∨ mux = TYPEC_MUX_DOCK then
        -- USB 3.0 uses 2 superspeed lanes
        gpio_set_level
          (if polarity ≠ 0 then GPIO_USBC_SS2_USB_MODE_L else GPIO_USBC_SS1_USB_MODE_L) 0 s
      else s
    let s :=
      if mux = TYPEC_MUX_DP ∨ mux = TYPEC_MUX_DOCK then
        -- DP uses available superspeed lanes (x2 or x4)
        let s := gpio_set_level GPIO_USBC_DP_POLARITY polarity s
        gpio_set_level GPIO_USBC_DP_MODE_L 0 s
      else s
    -- switch on superspeed lanes
    gpio_set_level GPIO_USBC_SS_EN_L 0 s

/-- C logical negation on `int`: 1 for zero, 0 for anything else. -/
def c_not (x : Int) : Int := if x = 0 then 1 else 0

/-- C logical disjunction on `int`. -/
def c_or (x y : Int) : Int := if x ≠ 0 ∨ y ≠ 0 then 1 else 0

/-- C logical conjunction on `int`. -/
def c_and (x y : Int) : Int := if x ≠ 0 ∧ y ≠ 0 then 1 else 0

/-- The locals that `command_typec` computes from the line levels when it is
called without a mode argument (`argc < 2`). -/
structure typec_status where
  has_ss : Int
  has_usb : Int
  has_dp : Int
  dp_str : String
  usb_str : String
  deriving DecidableEq, Repr

/-- The `argc < 2` branch of `command_typec`: the five locals read back from
the switch lines. -/
def command_typec_status (s : gpio_state) : typec_status :=
  { has_ss := c_not (gpio_get_level GPIO_USBC_SS_EN_L s)
    has_usb := c_or (c_not (gpio_get_level GPIO_USBC_SS1_USB_MODE_L s))
                 (c_not (gpio_get_level GPIO_USBC_SS2_USB_MODE_L s))
    has_dp := c_not (gpio_get_level GPIO_USBC_DP_MODE_L s)
    dp_str := if gpio_get_level GPIO_USBC_DP_POLARITY s ≠ 0 then "DP2" else "DP1"
    usb_str := if gpio_get_level GPIO_USBC_SS1_USB_MODE_L s ≠ 0 then "USB2" else "USB1" }

/-- The superspeed line that the `argc < 2` branch of `command_typec` prints
from those locals (the preceding CC-voltage line depends on the ADC and is
not modelled). -/
def command_typec_report (s : gpio_state) : String :=
  let st := command_typec_status s
  if c_not st.has_ss ≠ 0 then
    "No Superspeed connection\n"
  else
    "Superspeed " ++ (if st.has_dp ≠ 0 then st.dp_str else "")
      ++ (if c_and st.has_dp st.has_usb ≠ 0 then "+" else "")
      ++ (if st.has_usb ≠ 0 then st.usb_str else "") ++ "\n"

/-! ## The switch outputs as the specification names them -/

/-- The specification's record of the five switch outputs. -/
structure SwitchState where
  superspeed_enable : Bool
  dp_mode_enable : Bool
  dp_polarity : Bool
  usb_lane1_enable : Bool
  usb_lane2_enable : Bool
  deriving DecidableEq, Repr

/-- Reading of the five switch lines as a `SwitchState`: an active-low `*_L`
line is enabled when it is at level 0, and `dp_polarity` is the level of
`GPIO_USBC_DP_POLARITY`. -/
def switch_state (s : gpio_state) : SwitchState :=
  { superspeed_enable := decide (gpio_get_level GPIO_USBC_SS_EN_L s = 0)
    dp_mode_enable := decide (gpio_get_level GPIO_USBC_DP_MODE_L s = 0)
    dp_polarity := decide (gpio_get_level GPIO_USBC_DP_POLARITY s ≠ 0)
    usb_lane1_enable := decide (gpio_get_level GPIO_USBC_SS1_USB_MODE_L s = 0)
    usb_lane2_enable := decide (gpio_get_level GPIO_USBC_SS2_USB_MODE_L s = 0) }

/-- A write that enables something: level 0 written to an active-low line. -/
def is_enable_write (w : gpio_signal × Int) : Bool :=
  decide (w.2 = 0) &&
    (decide (w.1 = GPIO_USBC_SS_EN_L) || decide (w.1 = GPIO_USBC_DP_MODE_L) ||
      decide (w.1 = GPIO_USBC_SS1_USB_MODE_L) || decide (w.1 = GPIO_USBC_SS2_USB_MODE_L))

/-- The five reset writes that open `board_set_usb_mux`, in source order. -/
def reset_writes : List (gpio_signal × Int) :=
  [(GPIO_USBC_SS_EN_L, 1), (GPIO_USBC_DP_MODE_L, 1), (GPIO_USBC_DP_POLARITY, 1),
   (GPIO_USBC_SS1_USB_MODE_L, 1), (GPIO_USBC_SS2_USB_MODE_L, 1)]

/-- A state with every line low and nothing written yet. -/
def gpio_all_low : gpio_state := { level := fun _ => false, writes := [] }

/-! ## bd99955.h -/

/-- Bit `DCDFAIL` of the VCC_UCD_STATUS and VBUS_UCD_STATUS registers. -/
def BD99955_CMD_UCD_STATUS_DCDFAIL : Nat := 1 <<< 15

/-- Bit `CHGPORT1` of the UCD status registers. -/
def BD99955_CMD_UCD_STATUS_CHGPORT1 : Nat := 1 <<< 13

/-- Bit `CHGPORT0` of the UCD status registers. -/
def BD99955_CMD_UCD_STATUS_CHGPORT0 : Nat := 1 <<< 12

/-- Bit `PUPDET` of the UCD status registers. -/
def BD99955_CMD_UCD_STATUS_PUPDET : Nat := 1 <<< 11

/-- Bit `CHGDET` of the UCD status registers. -/
def BD99955_CMD_UCD_STATUS_CHGDET : Nat := 1 <<< 6

/-- Pattern `BD99955_TYPE_VBUS_OPEN`. -/
def BD99955_TYPE_VBUS_OPEN : Nat := 0

/-- Pattern `BD99955_TYPE_SDP`. -/
def BD99955_TYPE_SDP : Nat := BD99955_CMD_UCD_STATUS_CHGPORT0

/-- Pattern `BD99955_TYPE_CDP`. -/
def BD99955_TYPE_CDP : Nat :=
  BD99955_CMD_UCD_STATUS_CHGDET ||| BD99955_CMD_UCD_STATUS_CHGPORT1

/-- Pattern `BD99955_TYPE_OTHER`. -/
def BD99955_TYPE_OTHER : Nat :=
  BD99955_CMD_UCD_STATUS_CHGDET ||| BD99955_CMD_UCD_STATUS_CHGPORT1 |||
    BD99955_CMD_UCD_STATUS_CHGPORT0 ||| BD99955_CMD_UCD_STATUS_DCDFAIL

/-- Pattern `BD99955_TYPE_DCP`. -/
def BD99955_TYPE_DCP : Nat :=
  BD99955_CMD_UCD_STATUS_CHGDET ||| BD99955_CMD_UCD_STATUS_CHGPORT0 |||
    BD99955_CMD_UCD_STATUS_CHGPORT1

/-- Pattern `BD99955_TYPE_PUP_PORT`. -/
def BD99955_TYPE_PUP_PORT : Nat :=
  BD99955_CMD_UCD_STATUS_PUPDET ||| BD99955_CMD_UCD_STATUS_DCDFAIL |||
    BD99955_CMD_UCD_STATUS_CHGPORT0

/-- Pattern `BD99955_TYPE_OPEN_PORT`. -/
def BD99955_TYPE_OPEN_PORT : Nat :=
  BD99955_CMD_UCD_STATUS_DCDFAIL ||| BD99955_CMD_UCD_STATUS_CHGPORT0

/-- The relevance mask `BD99955_TYPE_MASK`. -/
def BD99955_TYPE_MASK : Nat := 0xB840

/-- The names of the seven `BD99955_TYPE_*` patterns of the header. -/
inductive bd99955_type where
  | VBUS_OPEN
  | SDP
  | CDP
  | OTHER
  | DCP
  | PUP_PORT
  | OPEN_PORT
  deriving DecidableEq, Repr

/-- The bit pattern the header gives to each name. -/
def bd99955_type.pattern : bd99955_type → Nat
  | .VBUS_OPEN => BD99955_TYPE_VBUS_OPEN
  | .SDP => BD99955_TYPE_SDP
  | .CDP => BD99955_TYPE_CDP
  | .OTHER => BD99955_TYPE_OTHER
  | .DCP => BD99955_TYPE_DCP
  | .PUP_PORT => BD99955_TYPE_PUP_PORT
  | .OPEN_PORT => BD99955_TYPE_OPEN_PORT

/-- The seven pattern names, in header order. -/
def bd99955_all_types : List bd99955_type :=
  [.VBUS_OPEN, .SDP, .CDP, .OTHER, .DCP, .PUP_PORT, .OPEN_PORT]

/-- The spec's charger-type categories. -/
inductive DetectedChargerType where
  | Open
  | StandardDownstream
  | ChargingDownstream
  | DedicatedCharger
  | ProprietaryOrOther
  | PullUpPending
  deriving DecidableEq, Repr

/-- Modelled from the spec: the Detection Classifier's scan (the header only
declares the patterns; the function that tests them is not in the sources).
The patterns named in `order` are tested one after the other against `status`
masked with the relevance mask, and the first exact match wins. -/
def first_exact_match (order : List bd99955_type) (status : Nat) : Option bd99955_type :=
  order.find? (fun t => t.pattern == status &&& BD99955_TYPE_MASK)

/-- Modelled from the spec: the priority order of section 4.2 (the classifier
function is not in the sources): dedicated charger, proprietary/other,
charging downstream, standard downstream, pull-up pending. -/
def classify_order : List bd99955_type := [.DCP, .OTHER, .CDP, .SDP, .PUP_PORT]

/-- Modelled from the spec: `classify(status)` of section 4.2 (the classifier
function is not in the sources). The first pattern of `classify_order` that
equals the masked status gives the category; with no match the result is
`Open`. -/
def classify (status : Nat) : DetectedChargerType :=
  match first_exact_match classify_order status with
  | some .DCP => .DedicatedCharger
  | some .OTHER => .ProprietaryOrOther
  | some .CDP => .ChargingDownstream
  | some .SDP => .StandardDownstream
  | some .PUP_PORT => .PullUpPending
  | _ => .Open

/-! ## Properties of `board_set_usb_mux` -/

/-- The levels of the five switch lines after `board_set_usb_mux`, whatever
they were before. -/
theorem board_set_usb_mux_levels (port : Int) (mux : typec_mux) (polarity : Int)
    (s : gpio_state) :
    (board_set_usb_mux port mux polarity s).level GPIO_USBC_SS_EN_L
        = decide (mux = TYPEC_MUX_NONE) ∧
    (board_set_usb_mux port mux polarity s).level GPIO_USBC_DP_MODE_L
        = decide (mux = TYPEC_MUX_NONE ∨ mux = TYPEC_MUX_USB) ∧
    (board_set_usb_mux port mux polarity s).level GPIO_USBC_DP_POLARITY
        = decide (mux = TYPEC_MUX_NONE ∨ mux = TYPEC_MUX_USB ∨ polarity ≠ 0) ∧
    (board_set_usb_mux port mux polarity s).level GPIO_USBC_SS1_USB_MODE_L
        = decide (mux = TYPEC_MUX_NONE ∨ mux = TYPEC_MUX_DP ∨ polarity ≠ 0) ∧
    (board_set_usb_mux port mux polarity s).level GPIO_USBC_SS2_USB_MODE_L
        = decide (mux = TYPEC_MUX_NONE ∨ mux = TYPEC_MUX_DP ∨ polarity = 0) := by
  cases mux <;> by_cases h : polarity = 0 <;>
    simp [board_set_usb_mux, gpio_set_level, h]

/-- Lines other than the five switch lines keep their level. -/
theorem board_set_usb_mux_frame (port : Int) (mux : typec_mux) (polarity : Int)
    (s : gpio_state) (g : gpio_signal) (h1 : g ≠ GPIO_USBC_SS_EN_L)
    (h2 : g ≠ GPIO_USBC_DP_MODE_L) (h3 : g ≠ GPIO_USBC_DP_POLARITY)
    (h4 : g ≠ GPIO_USBC_SS1_USB_MODE_L) (h5 : g ≠ GPIO_USBC_SS2_USB_MODE_L) :
    (board_set_usb_mux port mux polarity s).level g = s.level g := by
  cases mux <;> by_cases h : polarity = 0 <;>
    simp [board_set_usb_mux, gpio_set_level, h, h1, h2, h3, h4, h5]

/-- The level of any line after `board_set_usb_mux`, in closed form. -/
theorem board_set_usb_mux_level_eq (port : Int) (mux : typec_mux) (polarity : Int)
    (s : gpio_state) (g : gpio_signal) :
    (board_set_usb_mux port mux polarity s).level g =
      if g = GPIO_USBC_SS_EN_L then decide (mux = TYPEC_MUX_NONE)
      else if g = GPIO_USBC_DP_MODE_L then
        decide (mux = TYPEC_MUX_NONE ∨ mux = TYPEC_MUX_USB)
      else if g = GPIO_USBC_DP_POLARITY then
        decide (mux = TYPEC_MUX_NONE ∨ mux = TYPEC_MUX_USB ∨ polarity ≠ 0)
      else if g = GPIO_USBC_SS1_USB_MODE_L then
        decide (mux = TYPEC_MUX_NONE ∨ mux = TYPEC_MUX_DP ∨ polarity ≠ 0)
      else if g = GPIO_USBC_SS2_USB_MODE_L then
        decide (mux = TYPEC_MUX_NONE ∨ mux = TYPEC_MUX_DP ∨ polarity = 0)
      else s.level g := by
  obtain ⟨h1, h2, h3, h4, h5⟩ := board_set_usb_mux_levels port mux polarity s
  by_cases g1 : g = GPIO_USBC_SS_EN_L
  · rw [if_pos g1, g1, h1]
  by_cases g2 : g = GPIO_USBC_DP_MODE_L
  · rw [if_neg g1, if_pos g2, g2, h2]
  by_cases g3 : g = GPIO_USBC_DP_POLARITY
  · rw [if_neg g1, if_neg g2, if_pos g3, g3, h3]
  by_cases g4 : g = GPIO_USBC_SS1_USB_MODE_L
  · rw [if_neg g1, if_neg g2, if_neg g3, if_pos g4, g4, h4]
  by_cases g5 : g = GPIO_USBC_SS2_USB_MODE_L
  · rw [if_neg g1, if_neg g2, if_neg g3, if_neg g4, if_pos g5, g5, h5]
  rw [if_neg g1, if_neg g2, if_neg g3, if_neg g4, if_neg g5]
  exact board_set_usb_mux_frame port mux polarity s g g1 g2 g3 g4 g5

/-- The switch outputs after `board_set_usb_mux`, in closed form. -/
theorem switch_state_board_set_usb_mux (port : Int) (mux : typec_mux) (polarity : Int)
    (s : gpio_state) :
    switch_state (board_set_usb_mux port mux polarity s) =
      { superspeed_enable := decide (mux ≠ TYPEC_MUX_NONE)
        dp_mode_enable := decide (mux = TYPEC_MUX_DP ∨ mux = TYPEC_MUX_DOCK)
        dp_polarity := decide (mux = TYPEC_MUX_NONE ∨ mux = TYPEC_MUX_USB ∨ polarity ≠ 0)
        usb_lane1_enable :=
          decide ((mux = TYPEC_MUX_USB ∨ mux = TYPEC_MUX_DOCK) ∧ polarity = 0)
        usb_lane2_enable :=
          decide ((mux = TYPEC_MUX_USB ∨ mux = TYPEC_MUX_DOCK) ∧ polarity ≠ 0) } := by
  obtain ⟨h1, h2, h3, h4, h5⟩ := board_set_usb_mux_levels port mux polarity s
  simp only [switch_state, gpio_get_level, h1, h2, h3, h4, h5]
  cases mux <;> by_cases h : polarity = 0 <;> simp [h]

/-- C2: for every mode, polarity and prior state, after `board_set_usb_mux`
`superspeed_enable` is true exactly when at least one of `dp_mode_enable`,
`usb_lane1_enable`, `usb_lane2_enable` is true. -/
theorem superspeed_iff_some_lane (port : Int) (mux : typec_mux) (polarity : Int)
    (s : gpio_state) :
    (switch_state (board_set_usb_mux port mux polarity s)).superspeed_enable = true ↔
      ((switch_state (board_set_usb_mux port mux polarity s)).dp_mode_enable = true ∨
       (switch_state (board_set_usb_mux port mux polarity s)).usb_lane1_enable = true ∨
       (switch_state (board_set_usb_mux port mux polarity s)).usb_lane2_enable = true) := by
  rw [switch_state_board_set_usb_mux]
  cases mux <;> by_cases h : polarity = 0 <;> simp [h]

/-- C3: after `board_set_usb_mux` the two USB lane enables are never both
true; in modes Usb and Dock exactly one is enabled, lane 2 when the polarity
is non-zero and lane 1 when it is zero, and in modes None and DisplayPort
neither is enabled. -/
theorem usb_lanes_exclusive (port : Int) (mux : typec_mux) (polarity : Int)
    (s : gpio_state) :
    ¬ ((switch_state (board_set_usb_mux port mux polarity s)).usb_lane1_enable = true ∧
       (switch_state (board_set_usb_mux port mux polarity s)).usb_lane2_enable = true) ∧
    (switch_state (board_set_usb_mux port mux polarity s)).usb_lane1_enable
      = decide ((mux = TYPEC_MUX_USB ∨ mux = TYPEC_MUX_DOCK) ∧ polarity = 0) ∧
    (switch_state (board_set_usb_mux port mux polarity s)).usb_lane2_enable
      = decide ((mux = TYPEC_MUX_USB ∨ mux = TYPEC_MUX_DOCK) ∧ polarity ≠ 0) := by
  rw [switch_state_board_set_usb_mux]
  cases mux <;> by_cases h : polarity = 0 <;> simp [h]

/-- C4: after `board_set_usb_mux`, `dp_mode_enable` is true exactly in modes
DisplayPort and Dock; in those two modes `dp_polarity` is the polarity bit
passed in (true for non-zero, false for zero); and `dp_mode_enable` together
with a USB lane enable occurs in Dock mode only. -/
theorem dp_mode_and_polarity (port : Int) (mux : typec_mux) (polarity : Int)
    (s : gpio_state) :
    ((switch_state (board_set_usb_mux port mux polarity s)).dp_mode_enable = true ↔
      (mux = TYPEC_MUX_DP ∨ mux = TYPEC_MUX_DOCK)) ∧
    (switch_state (board_set_usb_mux port TYPEC_MUX_DP polarity s)).dp_polarity
      = decide (polarity ≠ 0) ∧
    (switch_state (board_set_usb_mux port TYPEC_MUX_DOCK polarity s)).dp_polarity
      = decide (polarity ≠ 0) ∧
    (((switch_state (board_set_usb_mux port mux polarity s)).dp_mode_enable = true ∧
      ((switch_state (board_set_usb_mux port mux polarity s)).usb_lane1_enable = true ∨
       (switch_state (board_set_usb_mux port mux polarity s)).usb_lane2_enable = true)) ↔
      mux = TYPEC_MUX_DOCK) := by
  simp only [switch_state_board_set_usb_mux]
  cases mux <;> by_cases h : polarity = 0 <;> simp [h]

/-- C5: for mode Dock with polarity Flipped (`polarity = 1`), from any prior
state, `board_set_usb_mux` leaves dp_polarity, dp_mode_enable, usb_lane2_enable
and superspeed_enable true and usb_lane1_enable false. -/
theorem dock_flipped_state (port : Int) (s : gpio_state) :
    switch_state (board_set_usb_mux port TYPEC_MUX_DOCK 1 s) =
      { superspeed_enable := true
        dp_mode_enable := true
        dp_polarity := true
        usb_lane1_enable := false
        usb_lane2_enable := true } := by
  rw [switch_state_board_set_usb_mux]
  simp

/-- C6: the switch outputs left by `board_set_usb_mux` depend on the mode and
the polarity only, not on the prior state of the lines nor on `port`; and a
second call with the same mode and polarity leaves every line at the level the
first call left it. -/
theorem board_set_usb_mux_deterministic (port1 port2 : Int) (mux : typec_mux)
    (polarity : Int) (s1 s2 : gpio_state) :
    switch_state (board_set_usb_mux port1 mux polarity s1)
      = switch_state (board_set_usb_mux port2 mux polarity s2) ∧
    (board_set_usb_mux port2 mux polarity (board_set_usb_mux port1 mux polarity s1)).level
      = (board_set_usb_mux port1 mux polarity s1).level ∧
    switch_state (board_set_usb_mux port2 mux polarity
        (board_set_usb_mux port1 mux polarity s1))
      = switch_state (board_set_usb_mux port1 mux polarity s1) := by
  refine ⟨?_, ?_, ?_⟩
  · rw [switch_state_board_set_usb_mux, switch_state_board_set_usb_mux]
  · funext g
    rw [board_set_usb_mux_level_eq, board_set_usb_mux_level_eq port1]
    cases g <;> simp
  · rw [switch_state_board_set_usb_mux, switch_state_board_set_usb_mux]

/-- C1, as stated, fails: in mode None from the all-low state the reading of
`GPIO_USBC_DP_POLARITY` is true, so the five outputs are not all false. -/
theorem none_mode_dp_polarity_high :
    (switch_state (board_set_usb_mux 0 TYPEC_MUX_NONE 0 gpio_all_low)).dp_polarity = true ∧
    switch_state (board_set_usb_mux 0 TYPEC_MUX_NONE 0 gpio_all_low) ≠
      { superspeed_enable := false
        dp_mode_enable := false
        dp_polarity := false
        usb_lane1_enable := false
        usb_lane2_enable := false } := by
  decide

/-- C1, amended: for mode None, for either polarity and every prior state,
`board_set_usb_mux` leaves the four enables (superspeed, DP mode, USB lane 1,
USB lane 2) false, and leaves `GPIO_USBC_DP_POLARITY` at level 1, so that
`dp_polarity` reads true. -/
theorem none_mode_state (port : Int) (polarity : Int) (s : gpio_state) :
    switch_state (board_set_usb_mux port TYPEC_MUX_NONE polarity s) =
      { superspeed_enable := false
        dp_mode_enable := false
        dp_polarity := true
        usb_lane1_enable := false
        usb_lane2_enable := false } ∧
    gpio_get_level GPIO_USBC_DP_POLARITY
      (board_set_usb_mux port TYPEC_MUX_NONE polarity s) = 1 := by
  constructor
  · rw [switch_state_board_set_usb_mux]
    simp
  · simp [gpio_get_level, board_set_usb_mux_level_eq]

/-- C7: the writes that one call of `board_set_usb_mux` appends to the write
record start with the five reset writes (level 1 to each of the five switch
lines, none of them an enabling write); in mode None nothing follows them; in
every other mode the last write is `GPIO_USBC_SS_EN_L := 0`, and every write
between the reset writes and that last one goes to a lane, DP-polarity or
DP-mode line. -/
theorem board_set_usb_mux_write_order (port : Int) (mux : typec_mux) (polarity : Int)
    (s : gpio_state) :
    ∃ rest : List (gpio_signal × Int),
      (board_set_usb_mux port mux polarity s).writes = s.writes ++ reset_writes ++ rest ∧
      reset_writes =
        [(GPIO_USBC_SS_EN_L, 1), (GPIO_USBC_DP_MODE_L, 1), (GPIO_USBC_DP_POLARITY, 1),
         (GPIO_USBC_SS1_USB_MODE_L, 1), (GPIO_USBC_SS2_USB_MODE_L, 1)] ∧
      reset_writes.all (fun w => !is_enable_write w) = true ∧
      ((mux = TYPEC_MUX_NONE ∧ rest = []) ∨
       (mux ≠ TYPEC_MUX_NONE ∧
        ∃ mid : List (gpio_signal × Int),
          rest = mid ++ [(GPIO_USBC_SS_EN_L, 0)] ∧
          mid.all (fun w =>
            decide (w.1 = GPIO_USBC_SS1_USB_MODE_L) || decide (w.1 = GPIO_USBC_SS2_USB_MODE_L) ||
            decide (w.1 = GPIO_USBC_DP_POLARITY) || decide (w.1 = GPIO_USBC_DP_MODE_L)) = true)) := by
  cases mux
  · exact ⟨[], by simp [board_set_usb_mux, gpio_set_level, reset_writes], rfl, by decide,
      Or.inl ⟨rfl, rfl⟩⟩
  · by_cases h : polarity = 0
    · exact ⟨[(GPIO_USBC_SS1_USB_MODE_L, 0), (GPIO_USBC_SS_EN_L, 0)],
        by simp [board_set_usb_mux, gpio_set_level, reset_writes, h], rfl, by decide,
        Or.inr ⟨by decide, [(GPIO_USBC_SS1_USB_MODE_L, 0)], rfl, by decide⟩⟩
    · exact ⟨[(GPIO_USBC_SS2_USB_MODE_L, 0), (GPIO_USBC_SS_EN_L, 0)],
        by simp [board_set_usb_mux, gpio_set_level, reset_writes, h], rfl, by decide,
        Or.inr ⟨by decide, [(GPIO_USBC_SS2_USB_MODE_L, 0)], rfl, by decide⟩⟩
  · exact ⟨[(GPIO_USBC_DP_POLARITY, polarity), (GPIO_USBC_DP_MODE_L, 0),
        (GPIO_USBC_SS_EN_L, 0)],
      by simp [board_set_usb_mux, gpio_set_level, reset_writes], rfl, by decide,
      Or.inr ⟨by decide, [(GPIO_USBC_DP_POLARITY, polarity), (GPIO_USBC_DP_MODE_L, 0)],
        rfl, by simp⟩⟩
  · by_cases h : polarity = 0
    · exact ⟨[(GPIO_USBC_SS1_USB_MODE_L, 0), (GPIO_USBC_DP_POLARITY, polarity),
          (GPIO_USBC_DP_MODE_L, 0), (GPIO_USBC_SS_EN_L, 0)],
        by simp [board_set_usb_mux, gpio_set_level, reset_writes, h], rfl, by decide,
        Or.inr ⟨by decide, [(GPIO_USBC_SS1_USB_MODE_L, 0), (GPIO_USBC_DP_POLARITY, polarity),
          (GPIO_USBC_DP_MODE_L, 0)], rfl, by simp⟩⟩
    · exact ⟨[(GPIO_USBC_SS2_USB_MODE_L, 0), (GPIO_USBC_DP_POLARITY, polarity),
          (GPIO_USBC_DP_MODE_L, 0), (GPIO_USBC_SS_EN_L, 0)],
        by simp [board_set_usb_mux, gpio_set_level, reset_writes, h], rfl, by decide,
        Or.inr ⟨by decide, [(GPIO_USBC_SS2_USB_MODE_L, 0), (GPIO_USBC_DP_POLARITY, polarity),
          (GPIO_USBC_DP_MODE_L, 0)], rfl, by simp⟩⟩

/-- C10: the status view that `command_typec` computes without a mode
argument decodes what `board_set_usb_mux` last set: `has_ss` is true iff the
mode is not None, `has_dp` iff it is DisplayPort or Dock, `has_usb` iff it is
Usb or Dock, and whenever the respective flag is true the label is DP2 / USB2
for a non-zero polarity and DP1 / USB1 for polarity zero. -/
theorem command_typec_decodes_mux (port : Int) (mux : typec_mux) (polarity : Int)
    (s : gpio_state) :
    ((command_typec_status (board_set_usb_mux port mux polarity s)).has_ss ≠ 0 ↔
      mux ≠ TYPEC_MUX_NONE) ∧
    ((command_typec_status (board_set_usb_mux port mux polarity s)).has_dp ≠ 0 ↔
      (mux = TYPEC_MUX_DP ∨ mux = TYPEC_MUX_DOCK)) ∧
    ((command_typec_status (board_set_usb_mux port mux polarity s)).has_usb ≠ 0 ↔
      (mux = TYPEC_MUX_USB ∨ mux = TYPEC_MUX_DOCK)) ∧
    ((command_typec_status (board_set_usb_mux port mux polarity s)).has_dp ≠ 0 →
      (command_typec_status (board_set_usb_mux port mux polarity s)).dp_str
        = if polarity ≠ 0 then "DP2" else "DP1") ∧
    ((command_typec_status (board_set_usb_mux port mux polarity s)).has_usb ≠ 0 →
      (command_typec_status (board_set_usb_mux port mux polarity s)).usb_str
        = if polarity ≠ 0 then "USB2" else "USB1") := by
  obtain ⟨h1, h2, h3, h4, h5⟩ := board_set_usb_mux_levels port mux polarity s
  simp only [command_typec_status, gpio_get_level, c_not, c_or, h1, h2, h3, h4, h5]
  cases mux <;> by_cases h : polarity = 0 <;> simp [h]

/-- Witness for C10 at mode Dock, polarity 1, from the all-low state: both
flags are set and the labels are DP2 and USB2. -/
theorem command_typec_decodes_mux_witness :
    (command_typec_status (board_set_usb_mux 0 TYPEC_MUX_DOCK 1 gpio_all_low)).dp_str = "DP2" ∧
    (command_typec_status (board_set_usb_mux 0 TYPEC_MUX_DOCK 1 gpio_all_low)).usb_str
      = "USB2" :=
  ⟨(command_typec_decodes_mux 0 TYPEC_MUX_DOCK 1 gpio_all_low).2.2.2.1 (by decide),
   (command_typec_decodes_mux 0 TYPEC_MUX_DOCK 1 gpio_all_low).2.2.2.2 (by decide)⟩

/-! ## Properties of the BD99955 charger-type patterns -/

/-- A predicate that at most one value satisfies finds the same element in
any two lists with the same members. -/
theorem find_eq_of_unique {α : Type} (p : α → Bool)
    (uniq : ∀ a b, p a = true → p b = true → a = b) (l1 l2 : List α)
    (hmem : ∀ a, a ∈ l1 ↔ a ∈ l2) : l1.find? p = l2.find? p := by
  cases h1 : l1.find? p with
  | none =>
    symm
    rw [List.find?_eq_none] at h1 ⊢
    intro x hx
    exact h1 x ((hmem x).mpr hx)
  | some a =>
    have ha : p a = true := List.find?_some h1
    have hal : a ∈ l2 := (hmem a).mp (List.mem_of_find?_eq_some h1)
    cases h2 : l2.find? p with
    | none =>
      rw [List.find?_eq_none] at h2
      exact absurd ha (h2 a hal)
    | some b =>
      rw [uniq a b ha (List.find?_some h2)]

/-- The seven patterns take pairwise different values. -/
theorem bd99955_pattern_injective (t u : bd99955_type) (h : t.pattern = u.pattern) :
    t = u := by
  cases t <;> cases u <;> first | rfl | (exact absurd h (by decide))

/-- C8: testing the patterns in the spec's order (DCP, OTHER, CDP, SDP,
PUP_PORT) with first exact match, every status word whose masked value is the
dedicated-charger pattern with the DcdFail bit added classifies as
ProprietaryOrOther and not as DedicatedCharger. -/
theorem classify_dcp_with_dcdfail (status : Nat)
    (h : status &&& BD99955_TYPE_MASK
      = BD99955_TYPE_DCP ||| BD99955_CMD_UCD_STATUS_DCDFAIL) :
    classify status = DetectedChargerType.ProprietaryOrOther ∧
    classify status ≠ DetectedChargerType.DedicatedCharger := by
  have hc : classify status = DetectedChargerType.ProprietaryOrOther := by
    simp only [classify, first_exact_match, classify_order, h]
    decide
  rw [hc]
  exact ⟨rfl, by decide⟩

/-- Witness for C8: the 16-bit status word 0xB047 (the dedicated-charger bits,
DcdFail, and three bits outside the mask). -/
theorem classify_dcp_with_dcdfail_witness :
    0xB047 &&& BD99955_TYPE_MASK = BD99955_TYPE_DCP ||| BD99955_CMD_UCD_STATUS_DCDFAIL ∧
    0xB047 < 2 ^ 16 ∧
    classify 0xB047 = DetectedChargerType.ProprietaryOrOther ∧
    classify 0xB047 ≠ DetectedChargerType.DedicatedCharger :=
  ⟨by decide, by decide, classify_dcp_with_dcdfail 0xB047 (by decide)⟩

/-- C9: `BD99955_TYPE_MASK` is the OR of the five UCD status bits; each of the
seven `BD99955_TYPE_*` patterns lies inside the mask; the seven patterns are
pairwise distinct; hence for every status word at most one pattern name
matches `status & mask`, and first-exact-match classification returns the same
name for any two orderings of the same set of patterns. -/
theorem bd99955_patterns_disjoint :
    BD99955_TYPE_MASK =
      (BD99955_CMD_UCD_STATUS_DCDFAIL ||| BD99955_CMD_UCD_STATUS_CHGPORT1 |||
        BD99955_CMD_UCD_STATUS_CHGPORT0 ||| BD99955_CMD_UCD_STATUS_PUPDET |||
        BD99955_CMD_UCD_STATUS_CHGDET) ∧
    BD99955_TYPE_MASK = 0xB840 ∧
    bd99955_all_types.all (fun t => t.pattern &&& BD99955_TYPE_MASK == t.pattern) = true ∧
    (∀ t : bd99955_type, t ∈ bd99955_all_types) ∧
    (bd99955_all_types.map bd99955_type.pattern).Nodup ∧
    (∀ (status : Nat) (t u : bd99955_type),
      t.pattern = status &&& BD99955_TYPE_MASK →
      u.pattern = status &&& BD99955_TYPE_MASK → t = u) ∧
    (∀ (status : Nat) (l1 l2 : List bd99955_type), l1.Perm l2 →
      first_exact_match l1 status = first_exact_match l2 status) := by
  refine ⟨by decide, rfl, by decide, ?_, by decide, ?_, ?_⟩
  · intro t
    cases t <;> decide
  · intro status t u ht hu
    exact bd99955_pattern_injective t u (ht.trans hu.symm)
  · intro status l1 l2 hperm
    unfold first_exact_match
    apply find_eq_of_unique
    · intro a b ha hb
      exact bd99955_pattern_injective a b
        ((beq_iff_eq.mp ha).trans (beq_iff_eq.mp hb).symm)
    · intro a
      exact hperm.mem_iff

/-- Witness for C9 at status 0xB047: OTHER is the one matching name, and the
spec's order and its reverse both return it. -/
theorem bd99955_patterns_disjoint_witness :
    bd99955_type.OTHER = bd99955_type.OTHER ∧
    first_exact_match classify_order 0xB047 = some bd99955_type.OTHER ∧
    first_exact_match classify_order.reverse 0xB047 = some bd99955_type.OTHER :=
  ⟨bd99955_patterns_disjoint.2.2.2.2.2.1 0xB047 .OTHER .OTHER (by decide) (by decide),
   by decide,
   (bd99955_patterns_disjoint.2.2.2.2.2.2 0xB047 classify_order.reverse classify_order
      (List.reverse_perm classify_order)).trans (by decide)⟩

end Ryu
